import Mathlib

/-!
Verification development for the social-media post generator backend
(`backend-ts/src`: `server.ts`, `generate.ts`, `openai.ts`, `webResearch.ts`,
and the `validation.ts` module).

The TypeScript code is shallowly embedded: JavaScript runtime values are the
inductive `JSValue`, thrown `Error` objects are `JsError` carrying their
`message`, `async` functions returning or throwing become `Except JsError`,
and the two outward calls (the chat-completions call and the web-research
call) are represented by their outcomes, passed to the embedded functions as
explicit arguments.  JavaScript numbers are modelled as rationals plus a
distinguished NaN value; all comparisons the code performs on them (against
0 and 1e9) are exact on the values involved.  String `.length`, `.trim()`,
and `.slice()` are modelled by their Lean counterparts over characters.
-/

namespace Social

/-- Model of a JavaScript runtime value (the payload of a parsed JSON body,
a field of it, or a value produced by `JSON.parse`). -/
inductive JSValue where
  | undefined
  | null
  | bool (b : Bool)
  | num (q : ℚ)
  | nan
  | str (s : String)
  | arr (items : List JSValue)
  | obj (fields : List (String × JSValue))

/-- JavaScript truthiness: `undefined`, `null`, `false`, `0`, `NaN` and the
empty string are falsy; every object and array is truthy. -/
def truthy : JSValue → Bool
  | .undefined => false
  | .null => false
  | .bool b => b
  | .num q => decide (q ≠ 0)
  | .nan => false
  | .str s => decide (s ≠ "")
  | .arr _ => true
  | .obj _ => true

/-- JavaScript `typeof`: note `typeof null = "object"` and arrays are
`"object"` as well; `NaN` is a `"number"`. -/
def jsTypeof : JSValue → String
  | .undefined => "undefined"
  | .null => "object"
  | .bool _ => "boolean"
  | .num _ => "number"
  | .nan => "number"
  | .str _ => "string"
  | .arr _ => "object"
  | .obj _ => "object"

/-- Property access `v[k]`: on an object the (first) binding of the key,
`undefined` when absent; JSON arrays and primitives have none of the
string-keyed properties this code reads. -/
def getField : JSValue → String → JSValue
  | .obj fields, k =>
      match fields.find? (fun kv => kv.1 = k) with
      | some kv => kv.2
      | none => .undefined
  | _, _ => .undefined

/-- The string payload of a value already known (by a `typeof` guard) to be
a string. -/
def asString : JSValue → String
  | .str s => s
  | _ => ""

/-- The numeric payload of a value already known to be a (non-NaN) number. -/
def asNum : JSValue → ℚ
  | .num q => q
  | _ => 0

/-- JavaScript `String.prototype.trim`: whitespace removed from both ends
(modelled with `Char.isWhitespace` over the character list). -/
def jsTrim (s : String) : String :=
  String.mk (((s.data.dropWhile Char.isWhitespace).reverse.dropWhile
    Char.isWhitespace).reverse)

/-- JavaScript `s.slice(0, n)`: the first `n` characters. -/
def jsTake (s : String) (n : ℕ) : String :=
  String.mk (s.data.take n)

/-- JavaScript `Array.prototype.join`. -/
def jsJoin (sep : String) : List String → String
  | [] => ""
  | [x] => x
  | x :: y :: xs => x ++ sep ++ jsJoin sep (y :: xs)

/-- A thrown JavaScript `Error`, reduced to the `message` the server
inspects. -/
structure JsError where
  msg : String
  deriving Repr, DecidableEq

/-- JavaScript `String.prototype.includes`, i.e. substring occurrence
(case-sensitive). -/
def strIncludes (s pat : String) : Bool :=
  decide (pat.data <:+: s.data)

/-! ## Validator (`validation.ts`, duplicated verbatim inside `server.ts`) -/

/-- Result record of `validateProduct`. -/
structure ValidationResult where
  valid : Bool
  errors : List String
  deriving Repr, DecidableEq

/-- The `name` branch of `validateProduct`: the first matching clause of the
`if`/`else if` chain contributes its message, later clauses are skipped. -/
def nameFieldErrors (v : JSValue) : List String :=
  if truthy v = false ∨ jsTypeof v ≠ "string" ∨ (jsTrim (asString v)).length = 0 then
    ["Product name is required"]
  else if (asString v).length > 200 then
    ["Product name must be less than 200 characters"]
  else []

/-- The `description` branch of `validateProduct`. -/
def descriptionFieldErrors (v : JSValue) : List String :=
  if truthy v = false ∨ jsTypeof v ≠ "string" ∨ (jsTrim (asString v)).length = 0 then
    ["Product description is required"]
  else if (asString v).length > 5000 then
    ["Product description must be less than 5000 characters"]
  else []

/-- Test for the JavaScript check `v === undefined || v === null`. -/
def isNullish : JSValue → Bool
  | .undefined => true
  | .null => true
  | _ => false

/-- Test for the JavaScript `isNaN` applied to a value of number type. -/
def isNaNVal : JSValue → Bool
  | .nan => true
  | _ => false

/-- The `price` branch of `validateProduct` (`undefined`/`null`, then
type/NaN, then the two range clauses). -/
def priceFieldErrors (v : JSValue) : List String :=
  if isNullish v = true then
    ["Product price is required"]
  else if jsTypeof v ≠ "number" ∨ isNaNVal v = true then
    ["Product price must be a valid number"]
  else if asNum v < 0 then
    ["Product price cannot be negative"]
  else if asNum v > 1000000000 then
    ["Product price seems unrealistic"]
  else []

/-- Test for the guard `category !== undefined && category !== null &&
category !== ""` (strict inequality: only the empty string is excluded
among strings). -/
def categoryPresent : JSValue → Bool
  | .undefined => false
  | .null => false
  | .str s => decide (s ≠ "")
  | _ => true

/-- The `category` branch of `validateProduct`: checked only when the field
is strictly different from `undefined`, `null` and the empty string. -/
def categoryFieldErrors (v : JSValue) : List String :=
  if categoryPresent v = true then
    if jsTypeof v ≠ "string" then
      ["Product category must be a string"]
    else if (asString v).length > 100 then
      ["Product category must be less than 100 characters"]
    else []
  else []

/-- `validateProduct` from `validation.ts` / `server.ts`: a falsy or
non-object input short-circuits to the single whole-object message;
otherwise the four field branches accumulate their errors in order. -/
def validateProduct (product : JSValue) : ValidationResult :=
  if truthy product = false ∨ jsTypeof product ≠ "object" then
    ⟨false, ["Product data is required"]⟩
  else
    let errors :=
      nameFieldErrors (getField product "name")
        ++ descriptionFieldErrors (getField product "description")
        ++ priceFieldErrors (getField product "price")
        ++ categoryFieldErrors (getField product "category")
    ⟨errors.isEmpty, errors⟩

/-- The five recognized tones. -/
def validTones : List String :=
  ["professional", "casual", "humorous", "inspirational", "urgent"]

/-- `validateTone`: a string strictly equal to one of the five tones. -/
def validateTone (tone : JSValue) : Bool :=
  match tone with
  | .str s => validTones.contains s
  | _ => false

/-- The three recognized platform identifiers, in their enumeration order. -/
def validPlatforms : List String := ["twitter", "instagram", "linkedin"]

/-- `validatePlatforms` from `validation.ts`: non-arrays yield `[]`, arrays
are filtered to the recognized string elements, order preserved. -/
def validatePlatforms (platforms : JSValue) : List String :=
  match platforms with
  | .arr items =>
      items.filterMap fun v =>
        match v with
        | .str s => if validPlatforms.contains s then some s else none
        | _ => none
  | _ => []

/-! ## Research enricher (`webResearch.ts`) -/

/-- The digest produced by `performWebResearch`. -/
structure WebResearchResult where
  trendingTopics : List String
  relevantHashtags : List String
  marketInsights : String
  competitorMentions : List String
  deriving Repr, DecidableEq

/-- The all-empty digest returned when the guarded research call fails. -/
def emptyDigest : WebResearchResult :=
  { trendingTopics := []
    relevantHashtags := []
    marketInsights := ""
    competitorMentions := [] }

/-- `performWebResearch`: `getClient()` is invoked BEFORE the `try` block,
so a missing `OPENAI_API_KEY` throws out of the function; only failures of
the external web-search call itself (issued inside the `try`) are caught
and replaced by the all-empty digest.  The external call together with the
heuristic `parseResearchResponse` text mining of its output is abstracted
into its outcome `callOutcome` (an exception, or the digest mined from the
returned text); `hasApiKey` states whether `getClient()` succeeds. -/
def performWebResearch (hasApiKey : Bool)
    (callOutcome : Except JsError WebResearchResult) :
    Except JsError WebResearchResult :=
  if hasApiKey = false then
    .error ⟨"OPENAI_API_KEY environment variable is not set"⟩
  else
    match callOutcome with
    | .ok digest => .ok digest
    | .error _ => .ok emptyDigest

/-! ## Generation client (`openai.ts`) -/

/-- A single generated post, as typed in `types.ts` (`platform` is kept as
the raw identifier string; `callOpenAI` only lets the three recognized ones
through). -/
structure SocialMediaPost where
  platform : String
  content : String
  deriving Repr, DecidableEq

/-- Outcome of the chat-completions transport call made by `callOpenAI`:
an `OpenAI.APIError` with its HTTP status, some other thrown error, a
response with no content, a response whose content `JSON.parse` rejects, or
a response whose content parses to the given JSON value. -/
inductive LLMOutcome where
  | apiError (status : ℕ) (message : String)
  | thrown (message : String)
  | emptyContent
  | invalidJson
  | json (v : JSValue)

/-- The per-item validation filter of `callOpenAI`: the element must be a
truthy object whose `platform` is a string among the three recognized
platforms and whose `content` is a string that is non-empty after
trimming. -/
def asPost (v : JSValue) : Option SocialMediaPost :=
  if truthy v = true ∧ jsTypeof v = "object"
      ∧ jsTypeof (getField v "platform") = "string"
      ∧ validPlatforms.contains (asString (getField v "platform")) = true
      ∧ jsTypeof (getField v "content") = "string"
      ∧ (jsTrim (asString (getField v "content"))).length > 0 then
    some ⟨asString (getField v "platform"), asString (getField v "content")⟩
  else none

/-- `callOpenAI`: maps `APIError` statuses 401/429/500 to fixed `Error`
messages (rethrowing other API errors and non-API errors unchanged), then
requires a non-empty content that parses to a JSON object whose `posts`
field is an array, and filters that array elementwise with `asPost`.
`JSON.parse` never yields `undefined`; a `null` result makes the
`parsed.posts` access itself throw a `TypeError`, which the surrounding
`catch` rethrows unchanged. -/
def callOpenAI (outcome : LLMOutcome) : Except JsError (List SocialMediaPost) :=
  match outcome with
  | .apiError status message =>
      if status = 401 then
        .error ⟨"Invalid API key. Please check your OpenAI API key configuration."⟩
      else if status = 429 then
        .error ⟨"Rate limit exceeded. Please try again later."⟩
      else if status = 500 then
        .error ⟨"OpenAI service is temporarily unavailable. Please try again."⟩
      else .error ⟨message⟩
  | .thrown message => .error ⟨message⟩
  | .emptyContent => .error ⟨"No content received from AI"⟩
  | .invalidJson => .error ⟨"Invalid response format from AI"⟩
  | .json v =>
      match v with
      | .null => .error ⟨"Cannot read properties of null (reading \x27posts\x27)"⟩
      | _ =>
          match getField v "posts" with
          | .arr items => .ok (items.filterMap asPost)
          | _ => .error ⟨"Invalid posts structure in AI response"⟩

/-! ## Prompt builder and orchestration of the call (`generate.ts`) -/

/-- The validated product as typed in `types.ts` (the server forwards the
validated raw object under this shape). -/
structure Product where
  name : String
  description : String
  price : ℚ
  category : Option String
  deriving Repr, DecidableEq

/-- The cast `product as Product` the server performs after validation. -/
def toProduct (v : JSValue) : Product :=
  { name := asString (getField v "name")
    description := asString (getField v "description")
    price := asNum (getField v "price")
    category :=
      match getField v "category" with
      | .str s => some s
      | _ => none }

/-- The fixed per-tone style directives (`TONE_DESCRIPTIONS`).  The record
is keyed by the five tones; the server only ever passes one of them, so the
catch-all models the absent lookup. -/
def TONE_DESCRIPTIONS : String → String
  | "professional" =>
      "Use a professional, business-appropriate tone. Focus on value proposition and credibility."
  | "casual" => "Use a friendly, conversational tone. Be relatable and approachable."
  | "humorous" =>
      "Use wit and humor appropriately. Be entertaining while still promoting the product."
  | "inspirational" =>
      "Use motivational language. Focus on aspirations and positive outcomes."
  | "urgent" =>
      "Create a sense of urgency. Use action-oriented language and limited-time framing."
  | _ => ""

/-- Modelled from the spec: the repository imports per-platform maximum
content lengths from `config.ts`, which is not among the provided sources;
the spec treats them as externally-supplied constants consumed verbatim in
the platform guidelines, so they are fixed here as concrete constants. -/
def twitterMaxLength : ℕ := 280

/-- Modelled from the spec: externally-configured Instagram caption limit
from the missing `config.ts` (see `twitterMaxLength`). -/
def instagramMaxLength : ℕ := 2200

/-- Modelled from the spec: externally-configured LinkedIn post limit from
the missing `config.ts` (see `twitterMaxLength`). -/
def linkedinMaxLength : ℕ := 3000

/-- The fixed per-platform guideline lines (`PLATFORM_GUIDELINES`). -/
def PLATFORM_GUIDELINES : String → String
  | "twitter" =>
      "Twitter/X post (max " ++ toString twitterMaxLength
        ++ " characters). Be concise, use 1-2 relevant hashtags, and make it shareable."
  | "instagram" =>
      "Instagram caption (max " ++ toString instagramMaxLength
        ++ " characters). Be visually descriptive, use emojis, include 3-5 relevant hashtags at the end."
  | "linkedin" =>
      "LinkedIn post (max " ++ toString linkedinMaxLength
        ++ " characters). Be professional, provide value, and include a call to action."
  | _ => ""

/-- JavaScript `tone.charAt(0).toUpperCase() + tone.slice(1)`. -/
def capitalizeFirst (s : String) : String :=
  match s.data with
  | [] => ""
  | c :: rest => String.mk (c.toUpper :: rest)

/-- JavaScript `price.toFixed(2)`, modelled on rationals with rounding to
the nearest cent. -/
def toFixed2 (q : ℚ) : String :=
  let cents : ℤ := round (q * 100)
  let sign := if cents < 0 then "-" else ""
  let a := cents.natAbs
  sign ++ toString (a / 100) ++ "."
    ++ (if a % 100 < 10 then "0" else "") ++ toString (a % 100)

/-- The `webResearchSection` template string assembled inside `buildPrompt`:
empty unless a digest is present with trending topics or hashtags; the
market-insights part is added only when non-empty, truncated by
`slice(0, 300)`. -/
def webResearchSection (webResearch : Option WebResearchResult) : String :=
  match webResearch with
  | none => ""
  | some wr =>
      if wr.trendingTopics.length > 0 ∨ wr.relevantHashtags.length > 0 then
        let parts : List String :=
          (if wr.trendingTopics.length > 0 then
            ["Current trending topics: " ++ jsJoin ", " wr.trendingTopics]
          else [])
          ++ (if wr.relevantHashtags.length > 0 then
            ["Trending hashtags to consider: " ++ jsJoin " " wr.relevantHashtags]
          else [])
          ++ (if wr.marketInsights ≠ "" then
            ["Market insights: " ++ jsTake wr.marketInsights 300]
          else [])
        "\n\nWEB RESEARCH INSIGHTS (use these to make posts more relevant and timely):\n"
          ++ jsJoin "\n" parts
      else ""

/-- `buildPrompt`: the template literal of `generate.ts`, concatenated in
source order.  Braces that are literal text of the JSON schema instruction
are written with their character escapes. -/
def buildPrompt (product : Product) (tone : String) (platforms : List String)
    (webResearch : Option WebResearchResult) : String :=
  let platformInstructions :=
    jsJoin "\n" (platforms.map (fun p => "- " ++ PLATFORM_GUIDELINES p))
  "You are a social media marketing expert. Generate engaging social media posts for the following product.\n\nPRODUCT INFORMATION:\n- Name: "
    ++ product.name
    ++ "\n- Description: " ++ product.description
    ++ "\n- Price: $" ++ toFixed2 product.price
    ++ "\n"
    ++ (match product.category with
        | some c => if c = "" then "" else "- Category: " ++ c
        | none => "")
    ++ "\n\nTONE: " ++ capitalizeFirst tone
    ++ "\n" ++ TONE_DESCRIPTIONS tone
    ++ "\n\n"
    ++ ("PLATFORM REQUIREMENTS:\n" ++ platformInstructions ++ "\n")
    ++ webResearchSection webResearch
    ++ "\n\nGUIDELINES:\n1. Each post should be unique and tailored to its platform\x27s audience and format\n2. Include relevant emojis where appropriate\n3. Make the content engaging and shareable\n4. Highlight the key benefits of the product\n5. Include a subtle call-to-action\n6. Ensure all posts stay within character limits\n"
    ++ (match webResearch with
        | some _ =>
          "7. Incorporate relevant trending topics or hashtags from the web research when appropriate"
        | none => "")
    ++ "\n\nGenerate exactly one post for each platform: "
    ++ jsJoin ", " platforms
    ++ ".\n\nReturn your response as a JSON object with this exact structure:\n\x7b\n  \"posts\": [\n    \x7b \"platform\": \"platform_name\", \"content\": \"post content here\" \x7d\n  ]\n\x7d\n\nOnly include the JSON object in your response, no additional text."

/-- `generateSocialMediaPosts`: builds the prompt, issues the external call
(represented by its outcome), and filters the returned posts to the
requested platforms with non-empty trimmed content.  Missing platforms are
only logged as a warning, with no effect on the returned value. -/
def generateSocialMediaPosts (outcome : LLMOutcome) (product : Product)
    (tone : String) (platforms : List String)
    (webResearch : Option WebResearchResult) :
    Except JsError (List SocialMediaPost) :=
  let _prompt := buildPrompt product tone platforms webResearch
  match callOpenAI outcome with
  | .error e => .error e
  | .ok posts =>
      .ok (posts.filter fun post =>
        platforms.contains post.platform && decide ((jsTrim post.content).length > 0))

/-! ## Orchestrator (`server.ts`, the `POST /api/generate` handler) -/

/-- The destructured request body; absent fields destructure to
`undefined`. -/
structure GenerateRequestRaw where
  product : JSValue
  tone : JSValue
  platforms : JSValue
  enableWebResearch : JSValue

/-- The success response body. -/
structure Envelope where
  posts : List SocialMediaPost
  generated_at : String
  count : ℕ
  tone : String
  platforms : List String
  webResearchUsed : Bool
  webResearch : Option WebResearchResult
  deriving Repr, DecidableEq

/-- A response sent by the handler: a JSON success envelope, or an error
body with its HTTP status, `error` field, and optional `details` list and
`message`. -/
inductive ApiResponse where
  | success (env : Envelope)
  | failure (status : ℕ) (error : String) (details : Option (List String))
      (message : Option String)
  deriving Repr, DecidableEq

/-- The catch block of the handler: the thrown error's message is tested
for the substrings "API key" and "rate limit" (case-sensitively), falling
through to the generic 500 response. -/
def handleCaughtError (e : JsError) : ApiResponse :=
  if strIncludes e.msg "API key" = true then
    .failure 500 "API configuration error" none
      (some "The server is not properly configured. Please contact support.")
  else if strIncludes e.msg "rate limit" = true then
    .failure 429 "Rate limit exceeded" none
      (some "Too many requests. Please try again in a few moments.")
  else
    .failure 500 "Failed to generate posts" none
      (some "An unexpected error occurred. Please try again.")

/-- The tone resolution `tone && validateTone(tone) ? tone : "professional"`
of the handler. -/
def selectTone (tone : JSValue) : String :=
  if truthy tone = true ∧ validateTone tone = true then asString tone
  else "professional"

/-- The platform resolution
`platforms?.filter(p => validPlatforms.includes(p)) || [...validPlatforms]`
of the handler: optional chaining turns a nullish `platforms` into the full
default set; an array is filtered to the recognized identifiers (an empty
filter result is a truthy array and is kept); any other value makes the
`.filter` property access throw a `TypeError`, which the handler's catch
block receives. -/
def resolvePlatforms (platforms : JSValue) : Except JsError (List String) :=
  match platforms with
  | .undefined => .ok validPlatforms
  | .null => .ok validPlatforms
  | .arr items =>
      .ok (items.filterMap fun v =>
        match v with
        | .str s => if validPlatforms.contains s then some s else none
        | _ => none)
  | _ => .error ⟨"platforms.filter is not a function"⟩

/-- The `POST /api/generate` handler.  The two external calls are
represented by their outcomes: `researchOutcome` is the result of awaiting
`performWebResearch` (consulted only when `enableWebResearch` is truthy; a
rejection is swallowed by the handler's inner catch), and `llmOutcome`
feeds `generateSocialMediaPosts`.  `now` stands for
`new Date().toISOString()`. -/
def handle (researchOutcome : Except JsError WebResearchResult)
    (llmOutcome : LLMOutcome) (now : String) (req : GenerateRequestRaw) :
    ApiResponse :=
  let validation := validateProduct req.product
  if validation.valid = false then
    .failure 400 "Validation failed" (some validation.errors) none
  else
    let selectedTone := selectTone req.tone
    match resolvePlatforms req.platforms with
    | .error e => handleCaughtError e
    | .ok selectedPlatforms =>
      if selectedPlatforms.length = 0 then
        .failure 400 "Validation failed"
          (some ["At least one valid platform must be selected"]) none
      else
        let webResearch : Option WebResearchResult :=
          if truthy req.enableWebResearch = true then
            match researchOutcome with
            | .ok digest => some digest
            | .error _ => none
          else none
        match generateSocialMediaPosts llmOutcome (toProduct req.product)
            selectedTone selectedPlatforms webResearch with
        | .error e => handleCaughtError e
        | .ok posts =>
            .success
              { posts := posts
                generated_at := now
                count := posts.length
                tone := selectedTone
                platforms := selectedPlatforms
                webResearchUsed := webResearch.isSome
                webResearch := webResearch }

/-! ## Reference definitions taken from the specification text

These definitions restate, in the spec's own words, what the validator and
the post filter are claimed to accept; the theorems below compare them with
the embedded source functions. -/

/-- Reference condition from the spec: the name is a trimmed-non-empty
string of length at most 200. -/
def specNameOk (v : JSValue) : Bool :=
  match v with
  | .str s => decide (jsTrim s ≠ "" ∧ s.length ≤ 200)
  | _ => false

/-- Reference condition from the spec: the description is a
trimmed-non-empty string of length at most 5000. -/
def specDescriptionOk (v : JSValue) : Bool :=
  match v with
  | .str s => decide (jsTrim s ≠ "" ∧ s.length ≤ 5000)
  | _ => false

/-- Reference condition from the spec: the price is a number with
0 ≤ price ≤ 1e9. -/
def specPriceOk (v : JSValue) : Bool :=
  match v with
  | .num q => decide (0 ≤ q ∧ q ≤ 1000000000)
  | _ => false

/-- Reference condition from the spec: the category is absent/empty or a
string of at most 100 characters. -/
def specCategoryOk (v : JSValue) : Bool :=
  match v with
  | .undefined => true
  | .null => true
  | .str s => decide (s = "" ∨ s.length ≤ 100)
  | _ => false

/-- Reference acceptance condition for the whole product, from the spec. -/
def specProductOk (v : JSValue) : Bool :=
  specNameOk (getField v "name") && specDescriptionOk (getField v "description")
    && specPriceOk (getField v "price") && specCategoryOk (getField v "category")

/-- The two messages the validator can emit about the name. -/
def nameMessages : List String :=
  ["Product name is required", "Product name must be less than 200 characters"]

/-- The two messages the validator can emit about the description. -/
def descriptionMessages : List String :=
  ["Product description is required",
   "Product description must be less than 5000 characters"]

/-- The four messages the validator can emit about the price. -/
def priceMessages : List String :=
  ["Product price is required", "Product price must be a valid number",
   "Product price cannot be negative", "Product price seems unrealistic"]

/-- The two messages the validator can emit about the category. -/
def categoryMessages : List String :=
  ["Product category must be a string",
   "Product category must be less than 100 characters"]

/-- Reference filter from the spec: a provider item survives exactly when
it is an object whose platform is in the requested set and whose content is
a string non-empty after trimming. -/
def requestedPost (platforms : List String) (v : JSValue) :
    Option SocialMediaPost :=
  match v with
  | .obj _ =>
      match getField v "platform", getField v "content" with
      | .str p, .str c =>
          if platforms.contains p = true ∧ (jsTrim c).length > 0 then
            some ⟨p, c⟩
          else none
      | _, _ => none
  | _ => none

/-- String extraction used to phrase "the subset of the supplied
identifiers". -/
def strOf : JSValue → Option String
  | .str s => some s
  | _ => none

/-! ## Substring containment -/

/-- Substring occurrence, used to state what the built prompt contains. -/
def ContainsSubstr (s t : String) : Prop :=
  ∃ pre post : String, s = pre ++ t ++ post

theorem containsSubstr_refl (s : String) : ContainsSubstr s s :=
  ⟨"", "", String.ext (by simp [String.data_append])⟩

theorem ContainsSubstr.inr {t x : String} (s : String) (h : ContainsSubstr t x) :
    ContainsSubstr (s ++ t) x := by
  obtain ⟨pre, post, rfl⟩ := h
  exact ⟨s ++ pre, post, String.ext (by simp [String.data_append])⟩

theorem ContainsSubstr.inl {s x : String} (h : ContainsSubstr s x) (t : String) :
    ContainsSubstr (s ++ t) x := by
  obtain ⟨pre, post, rfl⟩ := h
  exact ⟨pre, post ++ t, String.ext (by simp [String.data_append])⟩

theorem containsSubstr_trans {s t x : String} (h1 : ContainsSubstr s t)
    (h2 : ContainsSubstr t x) : ContainsSubstr s x := by
  obtain ⟨a, b, rfl⟩ := h1
  obtain ⟨c, d, rfl⟩ := h2
  exact ⟨a ++ c, d ++ b, String.ext (by simp [String.data_append])⟩

theorem containsSubstr_jsJoin {x : String} (sep : String) {l : List String}
    (h : x ∈ l) : ContainsSubstr (jsJoin sep l) x := by
  induction l with
  | nil => cases h
  | cons y ys ih =>
      rcases List.mem_cons.mp h with h | h
      · subst h
        cases ys with
        | nil => exact containsSubstr_refl x
        | cons z zs =>
            exact ((containsSubstr_refl x).inl sep).inl (jsJoin sep (z :: zs))
      · cases ys with
        | nil => cases h
        | cons z zs => exact .inr (y ++ sep) (ih h)

/-! ## Sample request data used by witnesses -/

/-- A valid sample product body. -/
def ecoBottle : JSValue :=
  .obj [("name", .str "EcoBottle"), ("description", .str "Reusable bottle"),
        ("price", .num 20)]

/-- A well-formed provider outcome with one valid twitter post. -/
def goodLLM : LLMOutcome :=
  .json (.obj [("posts",
    .arr [.obj [("platform", .str "twitter"), ("content", .str "Hi")]])])

/-! ## Claims -/

/-- C1: evaluated on a valid request whose generation call fails with a
provider HTTP 429 error, the handler does NOT return the distinct
throttling category: `callOpenAI` rethrows status 429 as the message
"Rate limit exceeded. Please try again later.", the handler's catch block
tests `includes("rate limit")` case-sensitively, the capital "Rate" never
matches, and the response falls through to the generic 500 server error.
The claim (and the spec's intent, witnessed by the handler's otherwise-dead
429 branch) says the caller should receive the 429 throttling category. -/
theorem c1_provider_429_maps_to_generic_server_error :
    handle (.ok emptyDigest) (.apiError 429 "Rate limit reached for requests")
        "2024-01-01T00:00:00.000Z" ⟨ecoBottle, .undefined, .undefined, .undefined⟩ =
      .failure 500 "Failed to generate posts" none
        (some "An unexpected error occurred. Please try again.") ∧
    callOpenAI (.apiError 429 "Rate limit reached for requests") =
      .error ⟨"Rate limit exceeded. Please try again later."⟩ ∧
    handleCaughtError ⟨"Rate limit exceeded. Please try again later."⟩ ≠
      .failure 429 "Rate limit exceeded" none
        (some "Too many requests. Please try again in a few moments.") := by
  refine ⟨by decide, rfl, ?_⟩
  intro h
  exact absurd h (by decide)

/-- C3 counterexample: the research operation CAN propagate a failure —
with the capability credentials missing, `getClient()` throws before the
`try` block, so `performWebResearch` rejects instead of returning the
all-empty digest, contradicting the claim's "including missing
credentials" case. -/
theorem c3_counterexample_missing_credentials_propagate :
    performWebResearch false (.error ⟨"network error"⟩) =
      .error ⟨"OPENAI_API_KEY environment variable is not set"⟩ ∧
    performWebResearch false (.error ⟨"network error"⟩) ≠ .ok emptyDigest := by
  refine ⟨rfl, ?_⟩
  intro h
  exact Except.noConfusion h

/-- C3 (amended): once the client handle initializes (credentials present),
any failure of the external research call is swallowed and the all-empty
digest is returned; with missing credentials the initialization error
propagates out of the research operation instead. -/
theorem c3_amended_research_swallows_call_failures :
    (∀ e : JsError, performWebResearch true (.error e) = .ok emptyDigest) ∧
    (∀ e : JsError, performWebResearch false (.error e) =
      .error ⟨"OPENAI_API_KEY environment variable is not set"⟩) :=
  ⟨fun _ => rfl, fun _ => rfl⟩

/-- C2: on a request that validates, resolves a non-empty platform set and
has `enableWebResearch` truthy, if the awaited research call rejects, the
handler still returns the success envelope produced by the (successful)
generation, with `webResearchUsed = false`, `webResearch = null`, and the
posts present. -/
theorem c2_research_rejection_still_success
    (e : JsError) (llm : LLMOutcome) (now : String) (req : GenerateRequestRaw)
    (ps : List String) (posts : List SocialMediaPost)
    (hv : (validateProduct req.product).valid = true)
    (hp : resolvePlatforms req.platforms = .ok ps)
    (hps : ps ≠ [])
    (hweb : truthy req.enableWebResearch = true)
    (hgen : generateSocialMediaPosts llm (toProduct req.product)
      (selectTone req.tone) ps none = .ok posts)
    (hposts : posts ≠ []) :
    handle (.error e) llm now req =
      .success ⟨posts, now, posts.length, selectTone req.tone, ps, false, none⟩ := by
  simp only [handle, hv, hp, hweb, Bool.true_eq_false, if_false, if_true]
  rw [if_neg (by simp [List.length_eq_zero, hps])]
  simp only [hgen]
  rfl

/-- C2 witness: a concrete run with the research call rejecting. -/
theorem c2_witness :
    handle (.error ⟨"Research API failed"⟩) goodLLM "t"
        ⟨ecoBottle, .undefined, .undefined, .bool true⟩ =
      .success ⟨[⟨"twitter", "Hi"⟩], "t", 1, "professional",
        ["twitter", "instagram", "linkedin"], false, none⟩ :=
  c2_research_rejection_still_success _ _ _ _ _ _ (by decide) rfl
    (by decide) (by decide) rfl (by decide)

/-- C6: any raw tone value that is not exactly one of the five enumerated
tone strings resolves to "professional", and the handler's response on such
a request is identical to its response on the same request with tone
"professional" — in particular no validation error arises from the tone. -/
theorem c6_invalid_tone_falls_back_to_professional :
    ∀ v : JSValue, (∀ s, validTones.contains s = true → v ≠ .str s) →
      selectTone v = "professional" ∧
      ∀ r l now p pl w,
        handle r l now ⟨p, v, pl, w⟩ = handle r l now ⟨p, .str "professional", pl, w⟩ := by
  intro v hv
  have hsel : selectTone v = "professional" := by
    unfold selectTone
    cases v with
    | str s =>
        by_cases hc : validTones.contains s = true
        · exact absurd rfl (hv s hc)
        · rw [if_neg]
          rintro ⟨-, hvt⟩
          exact hc hvt
    | _ => simp [validateTone]
  refine ⟨hsel, fun r l now p pl w => ?_⟩
  simp only [handle, hsel]
  rfl

/-- C6 witness: the number 123 as tone resolves to "professional" and the
response equals the one for an explicit professional tone. -/
theorem c6_witness :
    selectTone (.num 123) = "professional" ∧
    handle (.ok emptyDigest) goodLLM "t" ⟨ecoBottle, .num 123, .undefined, .undefined⟩ =
      handle (.ok emptyDigest) goodLLM "t"
        ⟨ecoBottle, .str "professional", .undefined, .undefined⟩ := by
  have h := c6_invalid_tone_falls_back_to_professional (.num 123)
    (fun s _ h => JSValue.noConfusion h)
  exact ⟨h.1, h.2 _ _ _ _ _ _⟩

/-- C5: platform resolution policy — (a) an array input is filtered to the
recognized subset of its string elements, order preserved, both in
`validatePlatforms` and in the handler's resolution; (b) a non-array input
to `validatePlatforms` yields the empty set; (c) an absent platforms field
resolves to the full enumerated default set; (d) a selection that resolves
empty yields the blocking validation error, with a response independent of
both external-call outcomes (no external call is consulted). -/
theorem c5_platform_resolution_policy :
    (∀ items, validatePlatforms (.arr items) =
        (items.filterMap strOf).filter (fun s => validPlatforms.contains s) ∧
      resolvePlatforms (.arr items) = .ok (validatePlatforms (.arr items))) ∧
    (∀ v : JSValue, (∀ items, v ≠ .arr items) → validatePlatforms v = []) ∧
    (resolvePlatforms .undefined = .ok ["twitter", "instagram", "linkedin"]) ∧
    (∀ r l now req, (validateProduct req.product).valid = true →
      resolvePlatforms req.platforms = .ok [] →
      handle r l now req = .failure 400 "Validation failed"
        (some ["At least one valid platform must be selected"]) none) := by
  refine ⟨fun items => ⟨?_, rfl⟩, fun v hv => ?_, rfl, fun r l now req hv hp => ?_⟩
  · rw [List.filter_filterMap]
    apply List.filterMap_congr
    intro v _
    cases v <;> simp [strOf, Option.filter]
  · cases v <;> first | rfl | exact absurd rfl (hv _)
  · simp only [handle, hv, hp, Bool.true_eq_false, if_false, List.length_nil, if_true]

/-- C5 witness: the spec's concrete examples — a mixed list filters to the
recognized subset, a non-array yields the empty set, and an all-invalid
list produces the blocking error response. -/
theorem c5_witness :
    validatePlatforms (.arr [.str "twitter", .str "facebook", .str "tiktok"]) =
      (([.str "twitter", .str "facebook", .str "tiktok"] :
          List JSValue).filterMap strOf).filter (fun s => validPlatforms.contains s) ∧
    validatePlatforms (.num 5) = [] ∧
    handle (.ok emptyDigest) goodLLM "t"
        ⟨ecoBottle, .undefined, .arr [.str "facebook", .str "tiktok"], .undefined⟩ =
      .failure 400 "Validation failed"
        (some ["At least one valid platform must be selected"]) none := by
  refine ⟨(c5_platform_resolution_policy.1 _).1, ?_, ?_⟩
  · exact c5_platform_resolution_policy.2.1 (.num 5) (fun items h => JSValue.noConfusion h)
  · exact c5_platform_resolution_policy.2.2.2 _ _ _ _ (by decide) rfl

/-- C8: every success envelope returned by the handler has `count` equal to
the number of posts, every post's platform a member of the envelope's
resolved platform list, and `webResearchUsed` true exactly when the
`webResearch` field is present. -/
theorem c8_success_envelope_invariants
    (r : Except JsError WebResearchResult) (l : LLMOutcome) (now : String)
    (req : GenerateRequestRaw) (env : Envelope)
    (h : handle r l now req = .success env) :
    env.count = env.posts.length ∧
    (∀ post ∈ env.posts, post.platform ∈ env.platforms) ∧
    (env.webResearchUsed = true ↔ env.webResearch ≠ none) := by
  simp only [handle] at h
  split at h
  · simp at h
  · split at h
    · simp only [handleCaughtError] at h
      split at h
      · simp at h
      · split at h <;> simp at h
    · split at h
      · simp at h
      · split at h
        · simp only [handleCaughtError] at h
          split at h
          · simp at h
          · split at h <;> simp at h
        · rename_i ps hlen wr posts hgen
          rw [ApiResponse.success.injEq] at h
          subst h
          refine ⟨rfl, ?_, Option.isSome_iff_ne_none⟩
          intro post hmem
          simp only [generateSocialMediaPosts] at hgen
          split at hgen
          · exact absurd hgen (by simp)
          · rename_i posts0 hcall
            rw [Except.ok.injEq] at hgen
            subst hgen
            have hf := List.mem_filter.mp hmem
            have := hf.2
            simp only [Bool.and_eq_true, decide_eq_true_eq] at this
            exact List.mem_of_elem_eq_true this.1

/-- A concrete success envelope used to instantiate the invariants. -/
def sampleEnvelope : Envelope :=
  ⟨[⟨"twitter", "Hi"⟩], "t", 1, "professional",
   ["twitter", "instagram", "linkedin"], false, none⟩

/-- C8 witness: the invariants hold of a concrete successful run. -/
theorem c8_witness :
    sampleEnvelope.count = sampleEnvelope.posts.length ∧
    (∀ post ∈ sampleEnvelope.posts, post.platform ∈ sampleEnvelope.platforms) ∧
    (sampleEnvelope.webResearchUsed = true ↔ sampleEnvelope.webResearch ≠ none) :=
  c8_success_envelope_invariants (.ok emptyDigest) goodLLM "t"
    ⟨ecoBottle, .undefined, .undefined, .undefined⟩ sampleEnvelope (by decide)

/-- The element-wise filter of `callOpenAI` composed with the requested-set
filter of `generateSocialMediaPosts` coincides with the reference filter of
the claim, provided every requested platform is recognized. -/
theorem asPost_filter_eq (platforms : List String)
    (hsub : ∀ p ∈ platforms, p ∈ validPlatforms) (v : JSValue) :
    (asPost v).filter (fun post => platforms.contains post.platform &&
      decide ((jsTrim post.content).length > 0)) = requestedPost platforms v := by
  cases v with
  | obj fs =>
      simp only [asPost, requestedPost, truthy, jsTypeof]
      generalize getField (.obj fs) "platform" = P
      generalize getField (.obj fs) "content" = C
      cases P <;> cases C <;>
        simp only [jsTypeof, asString, Option.filter] <;>
        try simp
      rename_i p c
      by_cases hm2 : p ∈ platforms
      · have hm1 : p ∈ validPlatforms := hsub p hm2
        by_cases h3 : (jsTrim c).length > 0
        · simp [hm1, hm2, h3]
        · simp [hm1, hm2, h3]
      · by_cases hm1 : p ∈ validPlatforms
        · by_cases h3 : (jsTrim c).length > 0
          · simp [hm1, hm2, h3]
          · simp [hm1, hm2, h3]
        · simp [hm1, hm2]
  | undefined => rfl
  | null => rfl
  | nan => rfl
  | bool b => simp [asPost, requestedPost, jsTypeof, Option.filter]
  | num q => simp [asPost, requestedPost, jsTypeof, Option.filter]
  | str s => simp [asPost, requestedPost, jsTypeof, Option.filter]
  | arr items =>
      simp [asPost, requestedPost, truthy, jsTypeof, getField, Option.filter]

/-- C7: for any provider response parsing to an object whose `posts` field
is an array, generation succeeds (never errors) and returns exactly the
order-preserving subsequence of items that are objects with a platform in
the requested set and content non-empty after trimming; all other items
are dropped silently, and missing coverage of a requested platform does
not affect the returned value. -/
theorem c7_post_filtering
    (prod : Product) (tone : String) (wr : Option WebResearchResult)
    (platforms : List String) (fields : List (String × JSValue))
    (items : List JSValue)
    (hsub : ∀ p ∈ platforms, p ∈ validPlatforms)
    (hposts : getField (.obj fields) "posts" = .arr items) :
    generateSocialMediaPosts (.json (.obj fields)) prod tone platforms wr =
      .ok (items.filterMap (requestedPost platforms)) := by
  simp only [generateSocialMediaPosts, callOpenAI, hposts]
  rw [List.filter_filterMap]
  rw [List.filterMap_congr (fun v _ => asPost_filter_eq platforms hsub v)]

set_option maxRecDepth 4000 in
/-- C7 witness: a concrete provider list with a valid twitter item, an item
for an unrequested platform, an item with blank content, and a non-object
item filters to exactly the valid twitter post. -/
theorem c7_witness :
    generateSocialMediaPosts
        (.json (.obj [("posts", .arr
          [.obj [("platform", .str "twitter"), ("content", .str "Buy it")],
           .obj [("platform", .str "linkedin"), ("content", .str "Pro post")],
           .obj [("platform", .str "twitter"), ("content", .str "   ")],
           .str "junk"])]))
        ⟨"EcoBottle", "Reusable bottle", 20, none⟩ "professional" ["twitter"] none =
      .ok ([.obj [("platform", .str "twitter"), ("content", .str "Buy it")],
            .obj [("platform", .str "linkedin"), ("content", .str "Pro post")],
            .obj [("platform", .str "twitter"), ("content", .str "   ")],
            .str "junk"].filterMap (requestedPost ["twitter"])) :=
  c7_post_filtering _ _ _ _ _ _ (by decide) rfl

/-! ## Per-field facts about the validator -/

theorem nameFieldErrors_sub (v : JSValue) :
    ∀ m ∈ nameFieldErrors v, m ∈ nameMessages := by
  unfold nameFieldErrors
  split
  · simp [nameMessages]
  · split <;> simp [nameMessages]

theorem descriptionFieldErrors_sub (v : JSValue) :
    ∀ m ∈ descriptionFieldErrors v, m ∈ descriptionMessages := by
  unfold descriptionFieldErrors
  split
  · simp [descriptionMessages]
  · split <;> simp [descriptionMessages]

theorem priceFieldErrors_sub (v : JSValue) :
    ∀ m ∈ priceFieldErrors v, m ∈ priceMessages := by
  unfold priceFieldErrors
  split
  · simp [priceMessages]
  · split
    · simp [priceMessages]
    · split
      · simp [priceMessages]
      · split <;> simp [priceMessages]

theorem categoryFieldErrors_sub (v : JSValue) :
    ∀ m ∈ categoryFieldErrors v, m ∈ categoryMessages := by
  unfold categoryFieldErrors
  split
  · split
    · simp [categoryMessages]
    · split <;> simp [categoryMessages]
  · simp

theorem nameFieldErrors_length_le (v : JSValue) :
    (nameFieldErrors v).length ≤ 1 := by
  unfold nameFieldErrors
  split
  · simp
  · split <;> simp

theorem descriptionFieldErrors_length_le (v : JSValue) :
    (descriptionFieldErrors v).length ≤ 1 := by
  unfold descriptionFieldErrors
  split
  · simp
  · split <;> simp

theorem priceFieldErrors_length_le (v : JSValue) :
    (priceFieldErrors v).length ≤ 1 := by
  unfold priceFieldErrors
  split
  · simp
  · split
    · simp
    · split
      · simp
      · split <;> simp

theorem categoryFieldErrors_length_le (v : JSValue) :
    (categoryFieldErrors v).length ≤ 1 := by
  unfold categoryFieldErrors
  split
  · split
    · simp
    · split <;> simp
  · simp

/-- The else-branch of `validateProduct` on an object literal. -/
theorem validateProduct_obj_errors (fs : List (String × JSValue)) :
    (validateProduct (.obj fs)).errors =
      nameFieldErrors (getField (.obj fs) "name")
        ++ descriptionFieldErrors (getField (.obj fs) "description")
        ++ priceFieldErrors (getField (.obj fs) "price")
        ++ categoryFieldErrors (getField (.obj fs) "category") := by
  unfold validateProduct
  rw [if_neg]
  rintro (h | h)
  · exact absurd h (by simp [truthy])
  · exact h rfl

theorem countP_contains_eq_zero {l src tgt : List String}
    (hsub : ∀ m ∈ l, m ∈ src) (hdisj : ∀ m ∈ src, ¬ m ∈ tgt) :
    l.countP (fun m => tgt.contains m) = 0 := by
  rw [List.countP_eq_zero]
  intro m hm hcon
  exact hdisj m (hsub m hm) (List.mem_of_elem_eq_true hcon)

/-- C10: the validator emits at most one message about each of the four
fields in any one result, and a null or non-object product short-circuits
to exactly the single whole-object message. -/
theorem c10_one_message_per_field :
    (∀ v : JSValue, (v = .null ∨ jsTypeof v ≠ "object") →
      validateProduct v = ⟨false, ["Product data is required"]⟩) ∧
    (∀ v : JSValue,
      (validateProduct v).errors.countP (fun m => nameMessages.contains m) ≤ 1 ∧
      (validateProduct v).errors.countP (fun m => descriptionMessages.contains m) ≤ 1 ∧
      (validateProduct v).errors.countP (fun m => priceMessages.contains m) ≤ 1 ∧
      (validateProduct v).errors.countP (fun m => categoryMessages.contains m) ≤ 1) := by
  constructor
  · intro v hv
    unfold validateProduct
    rw [if_pos]
    rcases hv with rfl | h
    · exact Or.inl rfl
    · exact Or.inr h
  · intro v
    by_cases hg : truthy v = false ∨ jsTypeof v ≠ "object"
    · unfold validateProduct
      rw [if_pos hg]
      refine ⟨by decide, by decide, by decide, by decide⟩
    · cases v with
      | obj fs =>
          rw [validateProduct_obj_errors]
          simp only [List.countP_append]
          refine ⟨?_, ?_, ?_, ?_⟩
          · have h1 := Nat.le_trans
              (List.countP_le_length (fun m => nameMessages.contains m))
              (nameFieldErrors_length_le (getField (.obj fs) "name"))
            have h2 := countP_contains_eq_zero
              (descriptionFieldErrors_sub (getField (.obj fs) "description"))
              (by decide : ∀ m ∈ descriptionMessages, ¬ m ∈ nameMessages)
            have h3 := countP_contains_eq_zero
              (priceFieldErrors_sub (getField (.obj fs) "price"))
              (by decide : ∀ m ∈ priceMessages, ¬ m ∈ nameMessages)
            have h4 := countP_contains_eq_zero
              (categoryFieldErrors_sub (getField (.obj fs) "category"))
              (by decide : ∀ m ∈ categoryMessages, ¬ m ∈ nameMessages)
            omega
          · have h1 := Nat.le_trans
              (List.countP_le_length (fun m => descriptionMessages.contains m))
              (descriptionFieldErrors_length_le
                (getField (.obj fs) "description"))
            have h2 := countP_contains_eq_zero (nameFieldErrors_sub
              (getField (.obj fs) "name"))
              (by decide : ∀ m ∈ nameMessages, ¬ m ∈ descriptionMessages)
            have h3 := countP_contains_eq_zero
              (priceFieldErrors_sub (getField (.obj fs) "price"))
              (by decide : ∀ m ∈ priceMessages, ¬ m ∈ descriptionMessages)
            have h4 := countP_contains_eq_zero
              (categoryFieldErrors_sub (getField (.obj fs) "category"))
              (by decide : ∀ m ∈ categoryMessages, ¬ m ∈ descriptionMessages)
            omega
          · have h1 := Nat.le_trans
              (List.countP_le_length (fun m => priceMessages.contains m))
              (priceFieldErrors_length_le (getField (.obj fs) "price"))
            have h2 := countP_contains_eq_zero (nameFieldErrors_sub
              (getField (.obj fs) "name"))
              (by decide : ∀ m ∈ nameMessages, ¬ m ∈ priceMessages)
            have h3 := countP_contains_eq_zero (descriptionFieldErrors_sub
              (getField (.obj fs) "description"))
              (by decide : ∀ m ∈ descriptionMessages, ¬ m ∈ priceMessages)
            have h4 := countP_contains_eq_zero
              (categoryFieldErrors_sub (getField (.obj fs) "category"))
              (by decide : ∀ m ∈ categoryMessages, ¬ m ∈ priceMessages)
            omega
          · have h1 := Nat.le_trans
              (List.countP_le_length (fun m => categoryMessages.contains m))
              (categoryFieldErrors_length_le (getField (.obj fs) "category"))
            have h2 := countP_contains_eq_zero (nameFieldErrors_sub
              (getField (.obj fs) "name"))
              (by decide : ∀ m ∈ nameMessages, ¬ m ∈ categoryMessages)
            have h3 := countP_contains_eq_zero (descriptionFieldErrors_sub
              (getField (.obj fs) "description"))
              (by decide : ∀ m ∈ descriptionMessages, ¬ m ∈ categoryMessages)
            have h4 := countP_contains_eq_zero (priceFieldErrors_sub
              (getField (.obj fs) "price"))
              (by decide : ∀ m ∈ priceMessages, ¬ m ∈ categoryMessages)
            omega
      | arr items =>
          have harr : validateProduct (.arr items) = ⟨false,
              ["Product name is required", "Product description is required",
               "Product price is required"]⟩ := rfl
          rw [harr]
          refine ⟨by decide, by decide, by decide, by decide⟩
      | undefined => exact absurd (Or.inl rfl) hg
      | null => exact absurd (Or.inl rfl) hg
      | nan => exact absurd (Or.inl rfl) hg
      | bool b => exact absurd (Or.inr (by simp [jsTypeof])) hg
      | num q => exact absurd (Or.inr (by simp [jsTypeof])) hg
      | str s => exact absurd (Or.inr (by simp [jsTypeof])) hg

/-- C10 witness: a null product yields exactly the single whole-object
message, and a concrete object has at most one price message. -/
theorem c10_witness :
    validateProduct .null = ⟨false, ["Product data is required"]⟩ ∧
    (validateProduct (.obj [])).errors.countP
      (fun m => priceMessages.contains m) ≤ 1 :=
  ⟨c10_one_message_per_field.1 .null (Or.inl rfl),
   (c10_one_message_per_field.2 (.obj [])).2.2.1⟩

theorem string_length_zero_iff (s : String) : s.length = 0 ↔ s = "" := by
  cases s with
  | mk l =>
      cases l with
      | nil => exact ⟨fun _ => rfl, fun _ => rfl⟩
      | cons c cs =>
          refine ⟨fun h => absurd h (by simp), fun h => ?_⟩
          exact absurd (congrArg String.data h) (by simp)

theorem nameFieldErrors_eq_nil (v : JSValue) :
    nameFieldErrors v = [] ↔ specNameOk v = true := by
  cases v
  case str s =>
      simp only [nameFieldErrors, specNameOk, jsTypeof, truthy, asString]
      by_cases h0 : jsTrim s = ""
      · rw [if_pos (Or.inr (Or.inr (by rw [h0]; rfl)))]
        simp [h0]
      · rw [if_neg (by
          rintro (h | h | h)
          · have hs : s = "" := by simpa using h
            exact h0 (by rw [hs]; rfl)
          · exact h rfl
          · exact h0 ((string_length_zero_iff _).mp h))]
        by_cases h2 : s.length > 200
        · rw [if_pos h2]
          simp [h0, Nat.not_le.mpr h2]
        · rw [if_neg h2]
          simp [h0, Nat.le_of_not_lt h2]
  all_goals simp [nameFieldErrors, specNameOk, jsTypeof, truthy]

theorem descriptionFieldErrors_eq_nil (v : JSValue) :
    descriptionFieldErrors v = [] ↔ specDescriptionOk v = true := by
  cases v
  case str s =>
      simp only [descriptionFieldErrors, specDescriptionOk, jsTypeof, truthy, asString]
      by_cases h0 : jsTrim s = ""
      · rw [if_pos (Or.inr (Or.inr (by rw [h0]; rfl)))]
        simp [h0]
      · rw [if_neg (by
          rintro (h | h | h)
          · have hs : s = "" := by simpa using h
            exact h0 (by rw [hs]; rfl)
          · exact h rfl
          · exact h0 ((string_length_zero_iff _).mp h))]
        by_cases h2 : s.length > 5000
        · rw [if_pos h2]
          simp [h0, Nat.not_le.mpr h2]
        · rw [if_neg h2]
          simp [h0, Nat.le_of_not_lt h2]
  all_goals simp [descriptionFieldErrors, specDescriptionOk, jsTypeof, truthy]

theorem priceFieldErrors_eq_nil (v : JSValue) :
    priceFieldErrors v = [] ↔ specPriceOk v = true := by
  cases v
  case num q =>
      simp only [priceFieldErrors, specPriceOk, isNullish, isNaNVal, jsTypeof, asNum]
      rw [if_neg (by simp), if_neg (by simp)]
      by_cases hq : q < 0
      · rw [if_pos hq]
        simp [not_le.mpr hq]
      · rw [if_neg hq]
        by_cases h2 : q > 1000000000
        · rw [if_pos h2]
          simp [not_le.mpr h2]
        · rw [if_neg h2]
          simp [le_of_not_lt hq, le_of_not_lt h2]
  all_goals simp [priceFieldErrors, specPriceOk, isNullish, isNaNVal, jsTypeof]

theorem categoryFieldErrors_eq_nil (v : JSValue) :
    categoryFieldErrors v = [] ↔ specCategoryOk v = true := by
  cases v
  case str s =>
      simp only [categoryFieldErrors, specCategoryOk, categoryPresent, jsTypeof, asString]
      by_cases hs : s = ""
      · rw [if_neg (by simp [hs])]
        simp [hs]
      · rw [if_pos (by simp [hs]), if_neg (by simp)]
        by_cases h2 : s.length > 100
        · rw [if_pos h2]
          simp [hs, Nat.not_le.mpr h2]
        · rw [if_neg h2]
          simp [Nat.le_of_not_lt h2]
  all_goals simp [categoryFieldErrors, specCategoryOk, categoryPresent, jsTypeof]

theorem any_contains_eq_true {l tgt : List String}
    (hsub : ∀ m ∈ l, m ∈ tgt) (hne : l ≠ []) :
    l.any (fun m => tgt.contains m) = true := by
  cases l with
  | nil => exact absurd rfl hne
  | cons x xs =>
      have hx : x ∈ tgt := hsub x (List.mem_cons_self x xs)
      simp only [List.any_cons, Bool.or_eq_true]
      exact Or.inl (List.elem_eq_true_of_mem hx)

theorem any_contains_eq_false {l src tgt : List String}
    (hsub : ∀ m ∈ l, m ∈ src) (hdisj : ∀ m ∈ src, ¬ m ∈ tgt) :
    l.any (fun m => tgt.contains m) = false := by
  rw [List.any_eq_false]
  intro m hm hcon
  exact hdisj m (hsub m hm) (List.mem_of_elem_eq_true hcon)

set_option maxRecDepth 4000 in
/-- C4: the validator agrees with the reference definition taken from the
spec — the error list is empty exactly when the name is a trimmed-non-empty
string of length at most 200 (200 passes, 201 fails with the length
message), the description a trimmed-non-empty string of length at most
5000, the price a number in [0, 1e9], and the category absent/empty or a
string of at most 100 characters; and on an object input, each failing
field contributes one of its specific messages to the single result (all of
them simultaneously, as the empty object shows), while passing fields
contribute none. -/
theorem c4_validator_matches_reference :
    (∀ v : JSValue, ((validateProduct v).errors = [] ↔ specProductOk v = true)) ∧
    (∀ fs : List (String × JSValue),
      ((validateProduct (.obj fs)).errors.any
          (fun m => nameMessages.contains m) = true ↔
        specNameOk (getField (.obj fs) "name") = false) ∧
      ((validateProduct (.obj fs)).errors.any
          (fun m => descriptionMessages.contains m) = true ↔
        specDescriptionOk (getField (.obj fs) "description") = false) ∧
      ((validateProduct (.obj fs)).errors.any
          (fun m => priceMessages.contains m) = true ↔
        specPriceOk (getField (.obj fs) "price") = false) ∧
      ((validateProduct (.obj fs)).errors.any
          (fun m => categoryMessages.contains m) = true ↔
        specCategoryOk (getField (.obj fs) "category") = false)) ∧
    (validateProduct (.obj [("name", .str (String.mk (List.replicate 200 'a'))),
      ("description", .str "d"), ("price", .num 1)])).errors = [] ∧
    "Product name must be less than 200 characters" ∈
      (validateProduct (.obj [("name", .str (String.mk (List.replicate 201 'a'))),
        ("description", .str "d"), ("price", .num 1)])).errors ∧
    validateProduct (.obj []) = ⟨false,
      ["Product name is required", "Product description is required",
       "Product price is required"]⟩ := by
  refine ⟨?_, ?_, by decide, by decide, by decide⟩
  · intro v
    cases v
    case obj fs =>
        rw [validateProduct_obj_errors]
        simp only [List.append_eq_nil]
        rw [nameFieldErrors_eq_nil, descriptionFieldErrors_eq_nil,
          priceFieldErrors_eq_nil, categoryFieldErrors_eq_nil]
        simp [specProductOk]
    case arr items =>
        have harr : validateProduct (.arr items) = ⟨false,
            ["Product name is required", "Product description is required",
             "Product price is required"]⟩ := rfl
        rw [harr]
        simp [specProductOk, getField, specNameOk]
    case undefined =>
        have h : validateProduct .undefined = ⟨false, ["Product data is required"]⟩ := rfl
        rw [h]
        simp [specProductOk, getField, specNameOk]
    case null =>
        have h : validateProduct .null = ⟨false, ["Product data is required"]⟩ := rfl
        rw [h]
        simp [specProductOk, getField, specNameOk]
    case nan =>
        have h : validateProduct .nan = ⟨false, ["Product data is required"]⟩ := rfl
        rw [h]
        simp [specProductOk, getField, specNameOk]
    case bool b =>
        unfold validateProduct
        rw [if_pos (Or.inr (by simp [jsTypeof]))]
        simp [specProductOk, getField, specNameOk]
    case num q =>
        unfold validateProduct
        rw [if_pos (Or.inr (by simp [jsTypeof]))]
        simp [specProductOk, getField, specNameOk]
    case str s =>
        unfold validateProduct
        rw [if_pos (Or.inr (by simp [jsTypeof]))]
        simp [specProductOk, getField, specNameOk]
  · intro fs
    rw [validateProduct_obj_errors]
    refine ⟨?_, ?_, ?_, ?_⟩
    · simp only [List.any_append]
      rw [any_contains_eq_false
            (descriptionFieldErrors_sub (getField (.obj fs) "description"))
            (by decide : ∀ m ∈ descriptionMessages, ¬ m ∈ nameMessages),
          any_contains_eq_false (priceFieldErrors_sub (getField (.obj fs) "price"))
            (by decide : ∀ m ∈ priceMessages, ¬ m ∈ nameMessages),
          any_contains_eq_false
            (categoryFieldErrors_sub (getField (.obj fs) "category"))
            (by decide : ∀ m ∈ categoryMessages, ¬ m ∈ nameMessages)]
      simp only [Bool.or_false]
      cases hspec : specNameOk (getField (.obj fs) "name")
      · have hne : nameFieldErrors (getField (.obj fs) "name") ≠ [] := by
          intro hnil
          rw [(nameFieldErrors_eq_nil _).mp hnil] at hspec
          exact Bool.noConfusion hspec
        rw [any_contains_eq_true
          (nameFieldErrors_sub (getField (.obj fs) "name")) hne]
        simp
      · rw [(nameFieldErrors_eq_nil _).mpr hspec]
        simp
    · simp only [List.any_append]
      rw [any_contains_eq_false (nameFieldErrors_sub (getField (.obj fs) "name"))
            (by decide : ∀ m ∈ nameMessages, ¬ m ∈ descriptionMessages),
          any_contains_eq_false (priceFieldErrors_sub (getField (.obj fs) "price"))
            (by decide : ∀ m ∈ priceMessages, ¬ m ∈ descriptionMessages),
          any_contains_eq_false
            (categoryFieldErrors_sub (getField (.obj fs) "category"))
            (by decide : ∀ m ∈ categoryMessages, ¬ m ∈ descriptionMessages)]
      simp only [Bool.or_false, Bool.false_or]
      cases hspec : specDescriptionOk (getField (.obj fs) "description")
      · have hne : descriptionFieldErrors (getField (.obj fs) "description") ≠ [] := by
          intro hnil
          rw [(descriptionFieldErrors_eq_nil _).mp hnil] at hspec
          exact Bool.noConfusion hspec
        rw [any_contains_eq_true
          (descriptionFieldErrors_sub (getField (.obj fs) "description")) hne]
        simp
      · rw [(descriptionFieldErrors_eq_nil _).mpr hspec]
        simp
    · simp only [List.any_append]
      rw [any_contains_eq_false (nameFieldErrors_sub (getField (.obj fs) "name"))
            (by decide : ∀ m ∈ nameMessages, ¬ m ∈ priceMessages),
          any_contains_eq_false
            (descriptionFieldErrors_sub (getField (.obj fs) "description"))
            (by decide : ∀ m ∈ descriptionMessages, ¬ m ∈ priceMessages),
          any_contains_eq_false
            (categoryFieldErrors_sub (getField (.obj fs) "category"))
            (by decide : ∀ m ∈ categoryMessages, ¬ m ∈ priceMessages)]
      simp only [Bool.or_false, Bool.false_or]
      cases hspec : specPriceOk (getField (.obj fs) "price")
      · have hne : priceFieldErrors (getField (.obj fs) "price") ≠ [] := by
          intro hnil
          rw [(priceFieldErrors_eq_nil _).mp hnil] at hspec
          exact Bool.noConfusion hspec
        rw [any_contains_eq_true
          (priceFieldErrors_sub (getField (.obj fs) "price")) hne]
        simp
      · rw [(priceFieldErrors_eq_nil _).mpr hspec]
        simp
    · simp only [List.any_append]
      rw [any_contains_eq_false (nameFieldErrors_sub (getField (.obj fs) "name"))
            (by decide : ∀ m ∈ nameMessages, ¬ m ∈ categoryMessages),
          any_contains_eq_false
            (descriptionFieldErrors_sub (getField (.obj fs) "description"))
            (by decide : ∀ m ∈ descriptionMessages, ¬ m ∈ categoryMessages),
          any_contains_eq_false (priceFieldErrors_sub (getField (.obj fs) "price"))
            (by decide : ∀ m ∈ priceMessages, ¬ m ∈ categoryMessages)]
      simp only [Bool.or_false, Bool.false_or]
      cases hspec : specCategoryOk (getField (.obj fs) "category")
      · have hne : categoryFieldErrors (getField (.obj fs) "category") ≠ [] := by
          intro hnil
          rw [(categoryFieldErrors_eq_nil _).mp hnil] at hspec
          exact Bool.noConfusion hspec
        rw [any_contains_eq_true
          (categoryFieldErrors_sub (getField (.obj fs) "category")) hne]
        simp
      · rw [(categoryFieldErrors_eq_nil _).mpr hspec]
        simp

/-- C4 witness: the reference accepts the sample product (empty error
list), and the empty object fails the name reference and carries a name
message. -/
theorem c4_witness :
    (validateProduct ecoBottle).errors = [] ∧
    (validateProduct (.obj [])).errors.any (fun m => nameMessages.contains m) = true :=
  ⟨(c4_validator_matches_reference.1 ecoBottle).mpr (by decide),
   ((c4_validator_matches_reference.2.1 []).1).mpr (by decide)⟩

/-- C9: the prompt builder is a pure function (identical inputs give the
identical string); the prompt contains the platform-requirements section
made of exactly one guideline block per requested platform in the given
order; the enrichment section is non-empty exactly when a digest is present
with a non-empty topics or hashtags field; the prompt always contains that
section verbatim; and when present with non-empty market insights, the
insights excerpt inside it is truncated to 300 characters. -/
theorem c9_buildPrompt_structure :
    (∀ (prod : Product) (tone : String) (platforms : List String)
        (wr : Option WebResearchResult),
      buildPrompt prod tone platforms wr = buildPrompt prod tone platforms wr) ∧
    (∀ (prod : Product) (tone : String) (platforms : List String)
        (wr : Option WebResearchResult),
      ContainsSubstr (buildPrompt prod tone platforms wr)
        ("PLATFORM REQUIREMENTS:\n"
          ++ jsJoin "\n" (platforms.map (fun p => "- " ++ PLATFORM_GUIDELINES p))
          ++ "\n")) ∧
    (∀ wr : Option WebResearchResult,
      webResearchSection wr ≠ "" ↔
        ∃ d, wr = some d ∧ (d.trendingTopics ≠ [] ∨ d.relevantHashtags ≠ [])) ∧
    (∀ (prod : Product) (tone : String) (platforms : List String)
        (wr : Option WebResearchResult),
      ContainsSubstr (buildPrompt prod tone platforms wr) (webResearchSection wr)) ∧
    (∀ d : WebResearchResult,
      (d.trendingTopics ≠ [] ∨ d.relevantHashtags ≠ []) → d.marketInsights ≠ "" →
      ContainsSubstr (webResearchSection (some d))
        ("Market insights: " ++ jsTake d.marketInsights 300)) := by
  refine ⟨fun _ _ _ _ => rfl, ?_, ?_, ?_, ?_⟩
  · intro prod tone platforms wr
    simp only [buildPrompt]
    exact ContainsSubstr.inl (ContainsSubstr.inl (ContainsSubstr.inl
      (ContainsSubstr.inl (ContainsSubstr.inl (ContainsSubstr.inl
        (ContainsSubstr.inr _ (containsSubstr_refl _)) _) _) _) _) _) _
  · intro wr
    cases wr with
    | none => simp [webResearchSection]
    | some d =>
        simp only [webResearchSection]
        by_cases hc : d.trendingTopics.length > 0 ∨ d.relevantHashtags.length > 0
        · rw [if_pos hc]
          constructor
          · intro _
            refine ⟨d, rfl, ?_⟩
            rcases hc with h | h
            · exact Or.inl (List.length_pos.mp h)
            · exact Or.inr (List.length_pos.mp h)
          · intro _ heq
            have hdata := congrArg String.data heq
            rw [String.data_append] at hdata
            rcases List.append_eq_nil.mp hdata with ⟨h1, -⟩
            exact absurd h1 (by decide)
        · rw [if_neg hc]
          constructor
          · intro h
            exact absurd rfl h
          · rintro ⟨d', hd, hor⟩
            cases Option.some.inj hd
            push_neg at hc
            rcases hor with h | h
            · exact (h (List.length_eq_zero.mp (Nat.le_zero.mp hc.1))).elim
            · exact (h (List.length_eq_zero.mp (Nat.le_zero.mp hc.2))).elim
  · intro prod tone platforms wr
    simp only [buildPrompt]
    exact ContainsSubstr.inl (ContainsSubstr.inl (ContainsSubstr.inl
      (ContainsSubstr.inl (ContainsSubstr.inl
        (ContainsSubstr.inr _ (containsSubstr_refl _)) _) _) _) _) _
  · intro d hc hmi
    simp only [webResearchSection]
    rw [if_pos (by
      rcases hc with h | h
      · exact Or.inl (List.length_pos.mpr h)
      · exact Or.inr (List.length_pos.mpr h))]
    refine ContainsSubstr.inr _ (containsSubstr_jsJoin "\n" ?_)
    refine List.mem_append_right _ ?_
    rw [if_pos hmi]
    exact List.mem_singleton_self _

/-- A sample digest with one topic, one hashtag and non-empty insights. -/
def sampleDigest : WebResearchResult :=
  ⟨["eco"], ["#eco"], "Market is growing", ["BrandA"]⟩

/-- C9 witness: the concrete prompt for one platform contains its platform
section, and the concrete enrichment section contains the truncated
insights excerpt. -/
theorem c9_witness :
    ContainsSubstr
      (buildPrompt ⟨"EcoBottle", "Reusable bottle", 20, none⟩ "professional"
        ["twitter"] (some sampleDigest))
      ("PLATFORM REQUIREMENTS:\n"
        ++ jsJoin "\n" (["twitter"].map (fun p => "- " ++ PLATFORM_GUIDELINES p))
        ++ "\n") ∧
    ContainsSubstr (webResearchSection (some sampleDigest))
      ("Market insights: " ++ jsTake sampleDigest.marketInsights 300) :=
  ⟨c9_buildPrompt_structure.2.1 _ _ _ _,
   c9_buildPrompt_structure.2.2.2.2 sampleDigest (Or.inl (by decide)) (by decide)⟩

end Social
